import Mathlib

/-!
Verification development for the Oberon-subset compiler/interpreter
(lexer.py, parser.py, ast.py, semantic_analyzer.py, interpreter.py).

The Python sources are shallowly embedded: Python ints become `Int`,
Python floats become `Rat` (the float operations used by the claims
under scrutiny stay within exactly representable values), Python
strings become `String`, Python lists become `List`, raised exceptions
become an error sum type, and the mutable interpreter state
(scope chain, output buffer) is threaded explicitly.  Loops whose
iteration count is not structurally evident take a fuel argument; a
distinguished `fuelOut` error marks exhaustion, so a run that does not
return `fuelOut` behaves exactly like the unbounded Python run.
-/

namespace Ob

/-- The `DataType` enum from ast.py. -/
inductive DataType where
  | INTEGER
  | REAL
  | STRING
  | ARRAY
deriving DecidableEq, Repr

/-- Python runtime values as stored in `RuntimeValue.value` (interpreter.py):
an int, a float (modelled as a rational), a str, or a list. -/
inductive PyVal where
  | int (n : Int)
  | real (q : Rat)
  | str (s : String)
  | list (elems : List PyVal)

/-- Error values standing for the Python exceptions the sources raise.
`fuelOut` is the embedding artefact for fuel exhaustion (no Python
counterpart); every theorem below is about runs that do not hit it. -/
inductive PyErr where
  | typeError (msg : String)
  | nameError (msg : String)
  | runtimeError (msg : String)
  | indexError (msg : String)
  | valueError (msg : String)
  | zeroDivisionError
  | syntaxError (msg : String)
  | fuelOut
deriving DecidableEq, Repr

/-- Python truthiness for the values the interpreter stores
(used by `if`, `while`, `AND`, `OR`). -/
def pyTruthy : PyVal → Bool
  | .int n => n != 0
  | .real q => q != 0
  | .str s => s != ""
  | .list [] => false
  | .list (_ :: _) => true

mutual
/-- Python `str()` of a stored value.  Integers print as decimal
(matching `toString : Int → String` including the minus sign); the
decimal rendering of floats and the repr-quoting inside lists are not
modelled exactly (no claim evaluates them), only given plausible
stand-ins so the function stays total. -/
def pyStr : PyVal → String
  | .int n => toString n
  | .real q => toString q
  | .str s => s
  | .list l => "[" ++ String.intercalate ", " (pyStrList l) ++ "]"

def pyStrList : List PyVal → List String
  | [] => []
  | v :: rest => pyStr v :: pyStrList rest
end

/-- Python `float()` of a stored value.  `float` applied to a string
parses numeric text in Python; no reachable claim path applies it to a
string, so that case is conservatively an error here (documented
divergence). -/
def pyFloat : PyVal → Except PyErr Rat
  | .int n => .ok (n : Rat)
  | .real q => .ok q
  | .str _ => .error (.valueError "could not convert string to float")
  | .list _ => .error (.typeError "float argument must be a number")

/-- Truncation toward zero, Python `int()` on a float. -/
def ratTrunc (q : Rat) : Int :=
  if 0 ≤ q then ⌊q⌋ else ⌈q⌉

/-- Python `int()` of a stored value (string parsing unreachable from
the claims, conservatively an error, as in `pyFloat`). -/
def pyInt : PyVal → Except PyErr Int
  | .int n => .ok n
  | .real q => .ok (ratTrunc q)
  | .str _ => .error (.valueError "invalid literal for int")
  | .list _ => .error (.typeError "int argument must be a number")

mutual
/-- Python `==` on stored values: numeric kinds compare numerically,
strings compare as strings, mismatched kinds compare unequal (Python
`==` never raises on these types), lists compare elementwise. -/
def pyEq : PyVal → PyVal → Bool
  | .int n, .int m => n = m
  | .int n, .real q => (n : Rat) = q
  | .real q, .int n => q = (n : Rat)
  | .real p, .real q => p = q
  | .str s, .str t => s = t
  | .list a, .list b => pyEqList a b
  | _, _ => false

def pyEqList : List PyVal → List PyVal → Bool
  | [], [] => true
  | a :: as_, b :: bs => pyEq a b && pyEqList as_ bs
  | _, _ => false
end

mutual
/-- Python `<` on stored values: numeric kinds compare numerically,
strings lexicographically, lists lexicographically; comparing a number
with a string (or a list with a non-list) raises TypeError. -/
def pyLt : PyVal → PyVal → Except PyErr Bool
  | .int n, .int m => .ok (n < m)
  | .int n, .real q => .ok ((n : Rat) < q)
  | .real q, .int n => .ok (q < (n : Rat))
  | .real p, .real q => .ok (p < q)
  | .str s, .str t => .ok (s < t)
  | .list a, .list b => pyLtList a b
  | _, _ => .error (.typeError "comparison not supported between these types")

def pyLtList : List PyVal → List PyVal → Except PyErr Bool
  | [], [] => .ok false
  | [], _ :: _ => .ok true
  | _ :: _, [] => .ok false
  | a :: as_, b :: bs =>
    if pyEq a b then pyLtList as_ bs else pyLt a b
end

mutual
/-- Python `<=` on stored values (same kind rules as `pyLt`). -/
def pyLe : PyVal → PyVal → Except PyErr Bool
  | .int n, .int m => .ok (n ≤ m)
  | .int n, .real q => .ok ((n : Rat) ≤ q)
  | .real q, .int n => .ok (q ≤ (n : Rat))
  | .real p, .real q => .ok (p ≤ q)
  | .str s, .str t => .ok (s < t ∨ s = t)
  | .list a, .list b => pyLeList a b
  | _, _ => .error (.typeError "comparison not supported between these types")

def pyLeList : List PyVal → List PyVal → Except PyErr Bool
  | [], _ => .ok true
  | _ :: _, [] => .ok false
  | a :: as_, b :: bs =>
    if pyEq a b then pyLeList as_ bs else pyLt a b
end

/-- Python `>`: for the types stored here `a > b` agrees with `b < a`. -/
def pyGt (a b : PyVal) : Except PyErr Bool := pyLt b a

/-- Python `>=`: for the types stored here `a >= b` agrees with `b <= a`. -/
def pyGe (a b : PyVal) : Except PyErr Bool := pyLe b a

/-- Python `+` on raw stored values (used by the FOR-loop increment
`current.value + 1` in interpreter.py). -/
def pyAdd : PyVal → PyVal → Except PyErr PyVal
  | .int n, .int m => .ok (.int (n + m))
  | .int n, .real q => .ok (.real ((n : Rat) + q))
  | .real q, .int n => .ok (.real (q + (n : Rat)))
  | .real p, .real q => .ok (.real (p + q))
  | .str s, .str t => .ok (.str (s ++ t))
  | .list a, .list b => .ok (.list (a ++ b))
  | _, _ => .error (.typeError "unsupported operand types for +")

/-- The `RuntimeValue` from interpreter.py: a raw value plus a type tag. -/
structure RuntimeValue where
  value : PyVal
  type : DataType

/-- Expressions (ast.py).  `arrayAccess` carries the `.index` field the
interpreter reads (the backwards-compatibility field of `ArrayAccess`,
which is a single expression when the node was built with one index and
`None` otherwise). -/
inductive Expr where
  | lit (value : PyVal) (type : DataType)
  | var (name : String)
  | arrayAccess (name : String) (index : Option Expr)
  | call (name : String) (args : List Expr)
  | bin (left : Expr) (op : String) (right : Expr)
  | un (op : String) (operand : Expr)

/-- Assignment targets: `Assignment.variable` is either a plain name or
an `ArrayAccess` node (ast.py). -/
inductive AssignTarget where
  | name (s : String)
  | arr (name : String) (index : Option Expr)

/-- Statements (ast.py).  `forLoop` is an embedding-internal marker: it
is the running state of `execute_for_statement` after the bounds have
been evaluated once, letting the while-loop of the source be expressed
as recursion on the statement.  The parser never produces it. -/
inductive Stmt where
  | assign (target : AssignTarget) (e : Expr)
  | procCall (name : String) (args : List Expr)
  | ifS (cond : Expr) (thenS : Stmt) (elseS : Option Stmt)
  | whileS (cond : Expr) (body : Stmt)
  | forS (v : String) (start : Expr) (stop : Expr) (body : Stmt)
  | compound (stmts : List Stmt)
  | forLoop (v : String) (stop : Int) (body : Stmt)

/-- The `Parameter` from ast.py. -/
structure Parameter where
  name : String
  type : DataType
  is_reference : Bool

/-- Declarations (ast.py).  `varD` carries the `.array_size` field
(`Optional[int]`) that the analyzer and interpreter read; the
constructor shim that computes it from `array_dimensions` is modelled
separately for the parser claims. -/
inductive Declaration where
  | constD (name : String) (value : Expr)
  | varD (name : String) (type : DataType) (array_size : Option Int)
  | procD (name : String) (parameters : List Parameter)
      (return_type : Option DataType) (declarations : List Declaration)
      (statements : List Stmt)

/-- The payload of a `ProcedureDeclaration`, as stored in the
procedure tables of the analyzer and the interpreter. -/
structure ProcData where
  name : String
  parameters : List Parameter
  return_type : Option DataType
  declarations : List Declaration
  statements : List Stmt

/-- The `Program` from ast.py. -/
structure Program where
  name : String
  declarations : List Declaration
  statements : List Stmt

end Ob

namespace Ob

/-- Runtime symbol: `Symbol` from semantic_analyzer.py as used by the
interpreter, together with the dynamically attached `runtime_value`
attribute (`None` models a symbol that never received one). -/
structure RSymbol where
  name : String
  type : DataType
  is_constant : Bool
  runtime_value : Option RuntimeValue

/-- One `Scope`: an insertion-ordered mapping from names to symbols.
The parent link is represented by the tail of the scope-chain list. -/
abbrev Frame := List (String × RSymbol)

/-- The interpreter's `self.procedures` dictionary. -/
abbrev ProcTable := List (String × ProcData)

/-- Mutable interpreter state: the current scope chain (innermost
frame first, global frame last) and the output buffer. -/
structure IState where
  scopes : List Frame
  output : List String

/-- Result of a stateful interpreter step: like Python, the state at
the moment control returns is kept even when an exception propagates. -/
inductive Res (α : Type) where
  | ok (a : α) (s : IState)
  | err (e : PyErr) (s : IState)

/-- Lookup in a single scope's symbol dictionary. -/
def frameLookup : Frame → String → Option RSymbol
  | [], _ => none
  | (k, sym) :: rest, n => if k = n then some sym else frameLookup rest n

/-- The `Scope.lookup`: this scope, then the parent chain. -/
def scopesLookup : List Frame → String → Option RSymbol
  | [], _ => none
  | f :: rest, n =>
    match frameLookup f n with
    | some sym => some sym
    | none => scopesLookup rest n

/-- The `Scope.define` on the current scope: NameError when the name is
already present in this scope. -/
def scopesDefine : List Frame → RSymbol → Except PyErr (List Frame)
  | [], _ => .error (.runtimeError "no current scope")
  | f :: rest, sym =>
    if (frameLookup f sym.name).isSome then
      .error (.nameError ("Symbol " ++ sym.name ++ " already defined in this scope"))
    else .ok ((f ++ [(sym.name, sym)]) :: rest)

/-- Replace the `runtime_value` of the named symbol within one frame. -/
def frameSetValue : Frame → String → RuntimeValue → Frame
  | [], _, _ => []
  | (k, sym) :: rest, n, rv =>
    if k = n then (k, { sym with runtime_value := some rv }) :: rest
    else (k, sym) :: frameSetValue rest n rv

/-- The `Interpreter.set_variable`: find the symbol along the scope chain
(NameError when absent, RuntimeError when constant) and store the value
on it. -/
def scopesSet : List Frame → String → RuntimeValue → Except PyErr (List Frame)
  | [], n, _ => .error (.nameError ("Variable " ++ n ++ " not defined"))
  | f :: rest, n, rv =>
    match frameLookup f n with
    | some sym =>
      if sym.is_constant then
        .error (.runtimeError ("Cannot assign to constant " ++ n))
      else .ok (frameSetValue f n rv :: rest)
    | none => (scopesSet rest n rv).map (fun rest2 => f :: rest2)

/-- The `Interpreter.get_variable`: NameError when the name is unbound,
RuntimeError when the symbol carries no runtime value. -/
def scopesGet (frames : List Frame) (n : String) : Except PyErr RuntimeValue :=
  match scopesLookup frames n with
  | none => .error (.nameError ("Variable " ++ n ++ " not defined"))
  | some sym =>
    match sym.runtime_value with
    | none => .error (.runtimeError ("Variable " ++ n ++ " not initialized"))
    | some rv => .ok rv

/-- In-place update used by `set_array_element`, which mutates the
looked-up symbol directly and therefore performs no constant check. -/
def scopesSetRaw : List Frame → String → RuntimeValue → List Frame
  | [], _, _ => []
  | f :: rest, n, rv =>
    if (frameLookup f n).isSome then frameSetValue f n rv :: rest
    else f :: scopesSetRaw rest n rv

/-- The `self.procedures[name] = decl` (dict insert/overwrite). -/
def procsInsert : ProcTable → ProcData → ProcTable
  | [], p => [(p.name, p)]
  | (k, q) :: rest, p =>
    if k = p.name then (k, p) :: rest else (k, q) :: procsInsert rest p

/-- The `name in self.procedures` / `self.procedures[name]`. -/
def procsLookup : ProcTable → String → Option ProcData
  | [], _ => none
  | (k, p) :: rest, n => if k = n then some p else procsLookup rest n

/-- The `Interpreter.evaluate_binary_operation`, branch for branch. -/
def evalBinary (left : RuntimeValue) (op : String) (right : RuntimeValue) :
    Except PyErr RuntimeValue :=
  if op = "+" then
    if left.type = .STRING ∨ right.type = .STRING then
      .ok ⟨.str (pyStr left.value ++ pyStr right.value), .STRING⟩
    else if left.type = .REAL ∨ right.type = .REAL then do
      let a ← pyFloat left.value
      let b ← pyFloat right.value
      .ok ⟨.real (a + b), .REAL⟩
    else do
      let a ← pyInt left.value
      let b ← pyInt right.value
      .ok ⟨.int (a + b), .INTEGER⟩
  else if op = "-" then
    if left.type = .REAL ∨ right.type = .REAL then do
      let a ← pyFloat left.value
      let b ← pyFloat right.value
      .ok ⟨.real (a - b), .REAL⟩
    else do
      let a ← pyInt left.value
      let b ← pyInt right.value
      .ok ⟨.int (a - b), .INTEGER⟩
  else if op = "*" then
    if left.type = .REAL ∨ right.type = .REAL then do
      let a ← pyFloat left.value
      let b ← pyFloat right.value
      .ok ⟨.real (a * b), .REAL⟩
    else do
      let a ← pyInt left.value
      let b ← pyInt right.value
      .ok ⟨.int (a * b), .INTEGER⟩
  else if op = "/" then do
    let a ← pyFloat left.value
    let b ← pyFloat right.value
    if b = 0 then .error .zeroDivisionError
    else .ok ⟨.real (a / b), .REAL⟩
  else if op = "DIV" then do
    let a ← pyInt left.value
    let b ← pyInt right.value
    if b = 0 then .error .zeroDivisionError
    else .ok ⟨.int (Int.fdiv a b), .INTEGER⟩
  else if op = "MOD" then do
    let a ← pyInt left.value
    let b ← pyInt right.value
    if b = 0 then .error .zeroDivisionError
    else .ok ⟨.int (Int.fmod a b), .INTEGER⟩
  else if op = "=" then
    .ok ⟨.int (if pyEq left.value right.value then 1 else 0), .INTEGER⟩
  else if op = "#" then
    .ok ⟨.int (if pyEq left.value right.value then 0 else 1), .INTEGER⟩
  else if op = "<" then do
    let c ← pyLt left.value right.value
    .ok ⟨.int (if c then 1 else 0), .INTEGER⟩
  else if op = "<=" then do
    let c ← pyLe left.value right.value
    .ok ⟨.int (if c then 1 else 0), .INTEGER⟩
  else if op = ">" then do
    let c ← pyGt left.value right.value
    .ok ⟨.int (if c then 1 else 0), .INTEGER⟩
  else if op = ">=" then do
    let c ← pyGe left.value right.value
    .ok ⟨.int (if c then 1 else 0), .INTEGER⟩
  else if op = "AND" then
    .ok ⟨.int (if pyTruthy left.value && pyTruthy right.value then 1 else 0), .INTEGER⟩
  else if op = "OR" then
    .ok ⟨.int (if pyTruthy left.value || pyTruthy right.value then 1 else 0), .INTEGER⟩
  else .error (.typeError ("Unknown binary operator: " ++ op))

/-- The `Interpreter.evaluate_unary_operation`. -/
def evalUnary (op : String) (operand : RuntimeValue) : Except PyErr RuntimeValue :=
  if op = "+" then .ok operand
  else if op = "-" then
    if operand.type = .REAL then do
      let q ← pyFloat operand.value
      .ok ⟨.real (-q), .REAL⟩
    else do
      let n ← pyInt operand.value
      .ok ⟨.int (-n), .INTEGER⟩
  else .error (.typeError ("Unknown unary operator: " ++ op))

/-- The result-scan loop in `evaluate_expression`'s `FunctionCall`
branch: walk the body statements in order and return the expression of
the first `Assignment` whose target is the plain name `result`; the
loop executes nothing else, so the scan is a pure search. -/
def findResultExpr : List Stmt → Option Expr
  | [] => none
  | .assign (.name n) e :: rest =>
    if n = "result" then some e else findResultExpr rest
  | _ :: rest => findResultExpr rest

mutual
/-- The `Interpreter.evaluate_expression`.  Expression evaluation in the
source never appends to the output and, on success, restores the scope
pointer it started from, so it is modelled as a pure function of the
scope chain; on error the Python scope pointer may be left inside a
callee scope, which is unobservable because every caller aborts. -/
def evalExpr : Nat → ProcTable → List Frame → Expr → Except PyErr RuntimeValue
  | 0, _, _, _ => .error .fuelOut
  | fuel+1, procs, frames, e =>
    match e with
    | .lit v t => .ok ⟨v, t⟩
    | .var n => scopesGet frames n
    | .arrayAccess n idx =>
      match scopesGet frames n with
      | .error er => .error er
      | .ok arr =>
        match idx with
        | none => .error (.typeError "Unknown expression type")
        | some ie =>
          match evalExpr fuel procs frames ie with
          | .error er => .error er
          | .ok iv =>
            match iv.value with
            | .int i =>
              match arr.value with
              | .list elems =>
                if i < 0 ∨ (elems.length : Int) ≤ i then
                  .error (.indexError ("Array index " ++ toString i ++ " out of bounds"))
                else .ok ⟨elems.getD i.toNat (.int 0), arr.type⟩
              | _ => .error (.typeError (n ++ " is not an array"))
            | _ => .error (.typeError "Array index must be integer")
    | .call name args =>
      match procsLookup procs name with
      | none => .error (.nameError ("Function " ++ name ++ " not defined"))
      | some proc =>
        match proc.return_type with
        | none => .error (.typeError (name ++ " is a procedure, not a function"))
        | some _ =>
          match bindParams fuel procs ([] :: frames) (args.zip proc.parameters) with
          | .error er => .error er
          | .ok frames2 =>
            match findResultExpr proc.statements with
            | some rexpr => evalExpr fuel procs frames2 rexpr
            | none =>
              .error (.runtimeError ("Function " ++ name ++ " did not return a value"))
    | .bin l op r =>
      match evalExpr fuel procs frames l with
      | .error er => .error er
      | .ok lv =>
        match evalExpr fuel procs frames r with
        | .error er => .error er
        | .ok rv => evalBinary lv op rv
    | .un op e1 =>
      match evalExpr fuel procs frames e1 with
      | .error er => .error er
      | .ok v => evalUnary op v

/-- The parameter-binding loop shared by `execute_user_procedure` and
the `FunctionCall` branch of `evaluate_expression`: for each
(argument, parameter) pair of the truncating `zip`, evaluate the
argument in the scope chain as bound so far (the callee scope is
already pushed), define the parameter symbol there, and store the
value on it. -/
def bindParams : Nat → ProcTable → List Frame → List (Expr × Parameter) →
    Except PyErr (List Frame)
  | 0, _, _, _ => .error .fuelOut
  | _+1, _, frames, [] => .ok frames
  | fuel+1, procs, frames, (arg, param) :: rest =>
    match evalExpr fuel procs frames arg with
    | .error er => .error er
    | .ok v =>
      match scopesDefine frames ⟨param.name, param.type, false, none⟩ with
      | .error er => .error er
      | .ok frames1 =>
        match scopesSet frames1 param.name v with
        | .error er => .error er
        | .ok frames2 => bindParams fuel procs frames2 rest
end

/-- The argument loop of `execute_write_procedure` /
`execute_writeln_procedure`: evaluate each argument and append its
textual form to the output. -/
def writeArgs (fuel : Nat) (procs : ProcTable) : List Expr → IState → Res Unit
  | [], s => .ok () s
  | e :: rest, s =>
    match evalExpr fuel procs s.scopes e with
    | .error er => .err er s
    | .ok v => writeArgs fuel procs rest { s with output := s.output ++ [pyStr v.value] }

/-- The `Interpreter.execute_statement` and the statement-specific
`execute_*` methods it dispatches to.  The `forLoop` case is the
while-loop of `execute_for_statement` (bounds already evaluated);
`compound` also serves as the statement-sequence loops of procedure
bodies and the module body. -/
def execStmt : Nat → ProcTable → Stmt → IState → Res Unit
  | 0, _, _, s => .err .fuelOut s
  | fuel+1, procs, stmt, s =>
    match stmt with
    | .assign target e =>
      match evalExpr fuel procs s.scopes e with
      | .error er => .err er s
      | .ok v =>
        match target with
        | .name n =>
          match scopesSet s.scopes n v with
          | .error er => .err er s
          | .ok sc => .ok () { s with scopes := sc }
        | .arr n idx =>
          match scopesGet s.scopes n with
          | .error er => .err er s
          | .ok arr =>
            match idx with
            | none => .err (.typeError "Unknown expression type") s
            | some ie =>
              match evalExpr fuel procs s.scopes ie with
              | .error er => .err er s
              | .ok iv =>
                match iv.value with
                | .int i =>
                  match arr.value with
                  | .list elems =>
                    if i < 0 ∨ (elems.length : Int) ≤ i then
                      .err (.indexError ("Array index " ++ toString i ++ " out of bounds")) s
                    else
                      let arr2 : RuntimeValue := ⟨.list (elems.set i.toNat v.value), arr.type⟩
                      .ok () { s with scopes := scopesSetRaw s.scopes n arr2 }
                  | _ => .err (.typeError (n ++ " is not an array")) s
                | _ => .err (.typeError "Array index must be integer") s
    | .procCall name args =>
      if name = "Write" then
        if args.isEmpty then .err (.typeError "Write requires at least one argument") s
        else writeArgs fuel procs args s
      else if name = "WriteLn" then
        match writeArgs fuel procs args s with
        | .err er s' => .err er s'
        | .ok () s' => .ok () { s' with output := s'.output ++ ["\n"] }
      else
        match procsLookup procs name with
        | none => .err (.nameError ("Procedure " ++ name ++ " not defined")) s
        | some proc =>
          match bindParams fuel procs ([] :: s.scopes) (args.zip proc.parameters) with
          | .error er => .err er s
          | .ok frames2 =>
            match execStmt fuel procs (.compound proc.statements) { s with scopes := frames2 } with
            | .err er s' => .err er s'
            | .ok () s' => .ok () { s' with scopes := s'.scopes.tail }
    | .ifS cond t e =>
      match evalExpr fuel procs s.scopes cond with
      | .error er => .err er s
      | .ok c =>
        if pyTruthy c.value then execStmt fuel procs t s
        else
          match e with
          | some e1 => execStmt fuel procs e1 s
          | none => .ok () s
    | .whileS cond body =>
      match evalExpr fuel procs s.scopes cond with
      | .error er => .err er s
      | .ok c =>
        if pyTruthy c.value then
          match execStmt fuel procs body s with
          | .err er s' => .err er s'
          | .ok () s' => execStmt fuel procs (.whileS cond body) s'
        else .ok () s
    | .forS v start stop body =>
      match evalExpr fuel procs s.scopes start with
      | .error er => .err er s
      | .ok sv =>
        match evalExpr fuel procs s.scopes stop with
        | .error er => .err er s
        | .ok ev =>
          match sv.value, ev.value with
          | .int a, .int b =>
            match scopesSet s.scopes v ⟨.int a, .INTEGER⟩ with
            | .error er => .err er s
            | .ok sc => execStmt fuel procs (.forLoop v b body) { s with scopes := sc }
          | _, _ => .err (.typeError "For loop bounds must be integers") s
    | .forLoop v endv body =>
      match scopesGet s.scopes v with
      | .error er => .err er s
      | .ok cur =>
        match pyGt cur.value (.int endv) with
        | .error er => .err er s
        | .ok true => .ok () s
        | .ok false =>
          match execStmt fuel procs body s with
          | .err er s' => .err er s'
          | .ok () s' =>
            match pyAdd cur.value (.int 1) with
            | .error er => .err er s'
            | .ok nv =>
              match scopesSet s'.scopes v ⟨nv, .INTEGER⟩ with
              | .error er => .err er s'
              | .ok sc => execStmt fuel procs (.forLoop v endv body) { s' with scopes := sc }
    | .compound [] => .ok () s
    | .compound (st :: rest) =>
      match execStmt fuel procs st s with
      | .err er s' => .err er s'
      | .ok () s' => execStmt fuel procs (.compound rest) s'

/-- Default initialization of a declared variable
(`Interpreter.interpret`, the `VarDeclaration` branch). -/
def defaultValue (type : DataType) (array_size : Option Int) : RuntimeValue :=
  match array_size with
  | some size =>
    match type with
    | .INTEGER => ⟨.list (List.replicate size.toNat (.int 0)), .ARRAY⟩
    | .REAL => ⟨.list (List.replicate size.toNat (.real 0)), .ARRAY⟩
    | .STRING => ⟨.list (List.replicate size.toNat (.str "")), .ARRAY⟩
    | .ARRAY => ⟨.list (List.replicate size.toNat (.int 0)), .ARRAY⟩
  | none =>
    match type with
    | .INTEGER => ⟨.int 0, .INTEGER⟩
    | .REAL => ⟨.real 0, .REAL⟩
    | .STRING => ⟨.str "", .STRING⟩
    | .ARRAY => ⟨.int 0, .INTEGER⟩

/-- The declaration loop of `Interpreter.interpret`: register
procedures, define default-initialized variables; constant
declarations have no branch in the source and are skipped. -/
def initDecls : List Declaration → ProcTable → List Frame →
    Except PyErr (ProcTable × List Frame)
  | [], procs, frames => .ok (procs, frames)
  | .procD n ps rt ds sts :: rest, procs, frames =>
    initDecls rest (procsInsert procs ⟨n, ps, rt, ds, sts⟩) frames
  | .varD n ty asz :: rest, procs, frames =>
    match scopesDefine frames ⟨n, ty, false, some (defaultValue ty asz)⟩ with
    | .error er => .error er
    | .ok frames2 => initDecls rest procs frames2
  | .constD _ _ :: rest, procs, frames => initDecls rest procs frames

/-- The `Interpreter.interpret`: process declarations into the global
scope and procedure table, execute the module statements, and return
the collected output. -/
def interpret (fuel : Nat) (p : Program) : Res (List String) :=
  match initDecls p.declarations [] [[]] with
  | .error er => .err er ⟨[[]], []⟩
  | .ok (procs, frames) =>
    match execStmt fuel procs (.compound p.statements) ⟨frames, []⟩ with
    | .err er s => .err er s
    | .ok () s => .ok s.output s

end Ob

namespace Ob

/-- Analysis-time symbol: `Symbol` from semantic_analyzer.py as the
analyzer uses it (the dynamically attached `runtime_value` is never
read during analysis and is omitted from this view). -/
structure ASymbol where
  name : String
  type : DataType
  is_constant : Bool
  value : Option PyVal

/-- One analysis scope (insertion-ordered name-to-symbol mapping). -/
abbrev AFrame := List (String × ASymbol)

/-- Analyzer state: current scope chain (innermost first, global
last) plus the procedure table. -/
structure AState where
  scopes : List AFrame
  procs : ProcTable

/-- Lookup in a single analysis scope. -/
def aFrameLookup : AFrame → String → Option ASymbol
  | [], _ => none
  | (k, sym) :: rest, n => if k = n then some sym else aFrameLookup rest n

/-- The `Scope.lookup` during analysis: this scope, then the parents. -/
def aLookup : List AFrame → String → Option ASymbol
  | [], _ => none
  | f :: rest, n =>
    match aFrameLookup f n with
    | some sym => some sym
    | none => aLookup rest n

/-- The `Scope.define` during analysis. -/
def aDefine : List AFrame → ASymbol → Except PyErr (List AFrame)
  | [], _ => .error (.runtimeError "no current scope")
  | f :: rest, sym =>
    if (aFrameLookup f sym.name).isSome then
      .error (.nameError ("Symbol " ++ sym.name ++ " already defined in this scope"))
    else .ok ((f ++ [(sym.name, sym)]) :: rest)

/-- The `DataType.value`, the enum member string used in diagnostics. -/
def dtValue : DataType → String
  | .INTEGER => "INTEGER"
  | .REAL => "REAL"
  | .STRING => "STRING"
  | .ARRAY => "ARRAY"

/-- The `SemanticAnalyzer.is_type_compatible`: equal types, or the one-way
widening INTEGER-into-REAL. -/
def isTypeCompatible (target source : DataType) : Bool :=
  if target = source then true
  else if target = .REAL then
    if source = .INTEGER then true else false
  else false

mutual
/-- The `SemanticAnalyzer.analyze_expression`: computes the static type of
an expression or raises.  The lookup of a variable name falls back to
an explicit second lookup in the global scope in the source; since the
scope chain already ends at the global scope, that fallback can never
succeed and is folded into the chain lookup here. -/
def analyzeExpression : Nat → AState → Expr → Except PyErr DataType
  | 0, _, _ => .error .fuelOut
  | fuel+1, st, e =>
    match e with
    | .lit _ t => .ok t
    | .var n =>
      match aLookup st.scopes n with
      | none => .error (.nameError ("Variable " ++ n ++ " not defined"))
      | some sym => .ok sym.type
    | .arrayAccess n idx =>
      match aLookup st.scopes n with
      | none => .error (.nameError ("Array " ++ n ++ " not defined"))
      | some sym =>
        match idx with
        | none => .error (.typeError "Unknown expression type")
        | some ie =>
          match analyzeExpression fuel st ie with
          | .error er => .error er
          | .ok it =>
            if it = .INTEGER then .ok sym.type
            else .error (.typeError "Array index must be integer")
    | .call name args =>
      match procsLookup st.procs name with
      | none => .error (.nameError ("Function " ++ name ++ " not defined"))
      | some proc =>
        match proc.return_type with
        | none => .error (.typeError (name ++ " is a procedure, not a function"))
        | some rt =>
          if args.length ≠ proc.parameters.length then
            .error (.typeError ("Function " ++ name ++ " expects "
              ++ toString proc.parameters.length ++ " arguments, got "
              ++ toString args.length))
          else
            match analyzeArgs fuel st "function" name 0 (args.zip proc.parameters) with
            | .error er => .error er
            | .ok () => .ok rt
    | .bin l op r =>
      match analyzeExpression fuel st l with
      | .error er => .error er
      | .ok lt =>
        match analyzeExpression fuel st r with
        | .error er => .error er
        | .ok rt =>
          if ¬ isTypeCompatible lt rt then
            .error (.typeError ("Type mismatch in binary operation: "
              ++ dtValue lt ++ " " ++ op ++ " " ++ dtValue rt))
          else if op = "+" ∨ op = "-" ∨ op = "*" ∨ op = "/" ∨ op = "DIV" ∨ op = "MOD" then
            if lt = .REAL ∨ rt = .REAL then .ok .REAL else .ok .INTEGER
          else .ok .INTEGER
    | .un op e1 =>
      match analyzeExpression fuel st e1 with
      | .error er => .error er
      | .ok ot =>
        if op = "+" ∨ op = "-" then .ok ot
        else .error (.typeError ("Invalid unary operator: " ++ op))

/-- The per-argument compatibility loop shared by
`analyze_expression` (FunctionCall) and `analyze_procedure_call`;
`kind` is the word used in the diagnostic. -/
def analyzeArgs : Nat → AState → String → String → Nat → List (Expr × Parameter) →
    Except PyErr Unit
  | 0, _, _, _, _, _ => .error .fuelOut
  | _+1, _, _, _, _, [] => .ok ()
  | fuel+1, st, kind, cname, i, (arg, param) :: rest =>
    match analyzeExpression fuel st arg with
    | .error er => .error er
    | .ok at_ =>
      if isTypeCompatible param.type at_ then
        analyzeArgs fuel st kind cname (i + 1) rest
      else
        .error (.typeError ("Argument " ++ toString (i + 1) ++ " of " ++ kind ++ " "
          ++ cname ++ " expects " ++ dtValue param.type ++ ", got " ++ dtValue at_))
end

/-- The argument loop for the built-in `Write`/`WriteLn` calls:
each argument is analyzed, types are not checked. -/
def analyzeExprList : Nat → AState → List Expr → Except PyErr Unit
  | 0, _, _ => .error .fuelOut
  | _+1, _, [] => .ok ()
  | fuel+1, st, e :: rest =>
    match analyzeExpression fuel st e with
    | .error er => .error er
    | .ok _ => analyzeExprList fuel st rest

/-- The `SemanticAnalyzer.analyze_statement` and the statement-specific
methods it dispatches to.  `compound` also serves as the statement
loops over procedure and module bodies; the internal `forLoop` marker
matches no branch of the source dispatch and is accepted silently,
like any unknown statement object. -/
def analyzeStatement : Nat → AState → Stmt → Except PyErr Unit
  | 0, _, _ => .error .fuelOut
  | fuel+1, st, stmt =>
    match stmt with
    | .assign (.name n) e =>
      match aLookup st.scopes n with
      | none => .error (.nameError ("Variable " ++ n ++ " not defined"))
      | some sym =>
        if sym.is_constant then
          .error (.nameError ("Cannot assign to constant " ++ n))
        else
          match analyzeExpression fuel st e with
          | .error er => .error er
          | .ok et =>
            if isTypeCompatible sym.type et then .ok ()
            else
              .error (.typeError ("Cannot assign " ++ dtValue et ++ " to "
                ++ dtValue sym.type ++ " variable " ++ n))
    | .assign (.arr n idx) e =>
      match aLookup st.scopes n with
      | none => .error (.nameError ("Array " ++ n ++ " not defined"))
      | some sym =>
        if sym.is_constant then
          .error (.nameError ("Cannot assign to constant array " ++ n))
        else if sym.type ≠ .ARRAY then
          .error (.typeError (n ++ " is not an array"))
        else
          match idx with
          | none => .error (.typeError "Unknown expression type")
          | some ie =>
            match analyzeExpression fuel st ie with
            | .error er => .error er
            | .ok it =>
              if it ≠ .INTEGER then .error (.typeError "Array index must be integer")
              else
                match analyzeExpression fuel st e with
                | .error er => .error er
                | .ok _ => .ok ()
    | .procCall name args =>
      match procsLookup st.procs name with
      | none => .error (.nameError ("Procedure " ++ name ++ " not defined"))
      | some proc =>
        if name = "Write" ∨ name = "WriteLn" then
          analyzeExprList fuel st args
        else if args.length ≠ proc.parameters.length then
          .error (.typeError ("Procedure " ++ name ++ " expects "
            ++ toString proc.parameters.length ++ " arguments, got "
            ++ toString args.length))
        else
          match analyzeArgs fuel st "procedure" name 0 (args.zip proc.parameters) with
          | .error er => .error er
          | .ok () => .ok ()
    | .ifS cond t e =>
      match analyzeExpression fuel st cond with
      | .error er => .error er
      | .ok ct =>
        if ct ≠ .INTEGER then
          .error (.typeError "If condition must be integer (boolean)")
        else
          match analyzeStatement fuel st t with
          | .error er => .error er
          | .ok () =>
            match e with
            | some e1 => analyzeStatement fuel st e1
            | none => .ok ()
    | .whileS cond body =>
      match analyzeExpression fuel st cond with
      | .error er => .error er
      | .ok ct =>
        if ct ≠ .INTEGER then
          .error (.typeError "While condition must be integer (boolean)")
        else analyzeStatement fuel st body
    | .forS v start stop body =>
      match aLookup st.scopes v with
      | none => .error (.nameError ("Loop variable " ++ v ++ " not defined"))
      | some _ =>
        match analyzeExpression fuel st start with
        | .error er => .error er
        | .ok st1 =>
          match analyzeExpression fuel st stop with
          | .error er => .error er
          | .ok st2 =>
            if st1 ≠ .INTEGER ∨ st2 ≠ .INTEGER then
              .error (.typeError "For loop bounds must be integers")
            else analyzeStatement fuel st body
    | .compound [] => .ok ()
    | .compound (s1 :: rest) =>
      match analyzeStatement fuel st s1 with
      | .error er => .error er
      | .ok () => analyzeStatement fuel st (.compound rest)
    | .forLoop _ _ _ => .ok ()

/-- The parameter loop of `analyze_procedure_declaration`. -/
def aParamsDefine : List Parameter → List AFrame → Except PyErr (List AFrame)
  | [], frames => .ok frames
  | p :: rest, frames =>
    match aDefine frames ⟨p.name, p.type, false, none⟩ with
    | .error er => .error er
    | .ok frames2 => aParamsDefine rest frames2

/-- The declaration loop of `SemanticAnalyzer.analyze` together with
`analyze_declaration` and the three declaration-specific methods. -/
def analyzeDecls : Nat → AState → List Declaration → Except PyErr AState
  | 0, _, _ => .error .fuelOut
  | _+1, st, [] => .ok st
  | fuel+1, st, .constD n value :: rest =>
    match analyzeExpression fuel st value with
    | .error er => .error er
    | .ok vt =>
      let lv : Option PyVal := match value with | .lit v _ => some v | _ => none
      match aDefine st.scopes ⟨n, vt, true, lv⟩ with
      | .error er => .error er
      | .ok frames2 => analyzeDecls fuel { st with scopes := frames2 } rest
  | fuel+1, st, .varD n ty asz :: rest =>
    let symType : DataType := match asz with | some _ => .ARRAY | none => ty
    match aDefine st.scopes ⟨n, symType, false, none⟩ with
    | .error er => .error er
    | .ok frames2 => analyzeDecls fuel { st with scopes := frames2 } rest
  | fuel+1, st, .procD n ps rt ds sts :: rest =>
    let st1 : AState := { st with procs := procsInsert st.procs ⟨n, ps, rt, ds, sts⟩ }
    match aParamsDefine ps ([] :: st1.scopes) with
    | .error er => .error er
    | .ok child =>
      match analyzeDecls fuel { scopes := child, procs := st1.procs } ds with
      | .error er => .error er
      | .ok st2 =>
        match analyzeStatement fuel st2 (.compound sts) with
        | .error er => .error er
        | .ok () =>
          analyzeDecls fuel { scopes := st2.scopes.tail, procs := st2.procs } rest

/-- The two built-ins pre-registered by `_add_builtin_procedures`. -/
def builtinProcs : ProcTable :=
  [("Write", ⟨"Write", [], none, [], []⟩), ("WriteLn", ⟨"WriteLn", [], none, [], []⟩)]

/-- The traversal inside the `try` of `SemanticAnalyzer.analyze`. -/
def analyzeProgram (fuel : Nat) (p : Program) : Except PyErr Unit :=
  match analyzeDecls fuel ⟨[[]], builtinProcs⟩ p.declarations with
  | .error er => .error er
  | .ok st => analyzeStatement fuel st (.compound p.statements)

/-- Python `str()` of a raised exception: its message. -/
def semMsg : PyErr → String
  | .typeError m => m
  | .nameError m => m
  | .runtimeError m => m
  | .indexError m => m
  | .valueError m => m
  | .zeroDivisionError => "division by zero"
  | .syntaxError m => m
  | .fuelOut => "fuel exhausted"

/-- The `SemanticAnalyzer.analyze`: the whole traversal runs inside one
`try`; the single `except` appends one formatted message to the (fresh)
error list, which is then returned. -/
def analyze (fuel : Nat) (p : Program) : List String :=
  match analyzeProgram fuel p with
  | .ok () => []
  | .error e => ["Semantic error: " ++ semMsg e]

end Ob

namespace Ob

/-- The `TokenType` enum from lexer.py. -/
inductive TokenType where
  | MODULE | BEGIN | END | CONST | VAR | PROCEDURE | IF | THEN | ELSE
  | WHILE | DO | FOR | TO
  | INTEGER | REAL | STRING | ARRAY | OF
  | ASSIGN | PLUS | MINUS | MULTIPLY | DIVIDE | DIV | MOD | AND | OR
  | EQUAL | NOT_EQUAL | LESS | LESS_EQUAL | GREATER | GREATER_EQUAL
  | SEMICOLON | COLON | COMMA | LPAREN | RPAREN | LBRACKET | RBRACKET | DOT
  | IDENTIFIER | INTEGER_LITERAL | REAL_LITERAL | STRING_LITERAL
  | EOF | NEWLINE
deriving DecidableEq, Repr

/-- The `Token` from lexer.py. -/
structure Token where
  type : TokenType
  value : String
  line : Nat
  column : Nat
deriving DecidableEq, Repr

/-- The `.value` string of each `TokenType` member, used in parser
diagnostics. -/
def ttValue : TokenType → String
  | .MODULE => "MODULE" | .BEGIN => "BEGIN" | .END => "END" | .CONST => "CONST"
  | .VAR => "VAR" | .PROCEDURE => "PROCEDURE" | .IF => "IF" | .THEN => "THEN"
  | .ELSE => "ELSE" | .WHILE => "WHILE" | .DO => "DO" | .FOR => "FOR" | .TO => "TO"
  | .INTEGER => "INTEGER" | .REAL => "REAL" | .STRING => "STRING"
  | .ARRAY => "ARRAY" | .OF => "OF"
  | .ASSIGN => ":=" | .PLUS => "+" | .MINUS => "-" | .MULTIPLY => "*"
  | .DIVIDE => "/" | .DIV => "DIV" | .MOD => "MOD" | .AND => "AND" | .OR => "OR"
  | .EQUAL => "=" | .NOT_EQUAL => "#" | .LESS => "<" | .LESS_EQUAL => "<="
  | .GREATER => ">" | .GREATER_EQUAL => ">="
  | .SEMICOLON => ";" | .COLON => ":" | .COMMA => "," | .LPAREN => "("
  | .RPAREN => ")" | .LBRACKET => "[" | .RBRACKET => "]" | .DOT => "."
  | .IDENTIFIER => "IDENTIFIER" | .INTEGER_LITERAL => "INTEGER_LITERAL"
  | .REAL_LITERAL => "REAL_LITERAL" | .STRING_LITERAL => "STRING_LITERAL"
  | .EOF => "EOF" | .NEWLINE => "NEWLINE"

/-- The reserved-word dictionary of the lexer (keys are upper case). -/
def keywordLookup (s : String) : Option TokenType :=
  if s = "MODULE" then some .MODULE else if s = "BEGIN" then some .BEGIN
  else if s = "END" then some .END else if s = "CONST" then some .CONST
  else if s = "VAR" then some .VAR else if s = "PROCEDURE" then some .PROCEDURE
  else if s = "IF" then some .IF else if s = "THEN" then some .THEN
  else if s = "ELSE" then some .ELSE else if s = "WHILE" then some .WHILE
  else if s = "DO" then some .DO else if s = "FOR" then some .FOR
  else if s = "TO" then some .TO else if s = "INTEGER" then some .INTEGER
  else if s = "REAL" then some .REAL else if s = "STRING" then some .STRING
  else if s = "ARRAY" then some .ARRAY else if s = "OF" then some .OF
  else if s = "DIV" then some .DIV else if s = "MOD" then some .MOD
  else if s = "AND" then some .AND else if s = "OR" then some .OR
  else none

/-- The `value.upper()` for the keyword lookup. -/
def strUpper (s : String) : String := String.mk (s.data.map Char.toUpper)

/-- Python `str.isspace` on the ASCII characters a source file holds. -/
def pyIsSpace (c : Char) : Bool :=
  c = ' ' ∨ c = '\t' ∨ c = '\n' ∨ c = '\r' ∨ c = '\x0b' ∨ c = '\x0c'

/-- The `Lexer.skip_whitespace`: the outer whitespace loop (`mode = false`)
and the inner comment loop (`mode = true`) folded into one
character-consuming recursion over the remaining input.  `advance`
increments the column; a newline sets the column to 1 first and the
subsequent increment makes it 2, exactly as in the source.  An
unterminated comment simply consumes the rest of the input — the inner
loop of the source has no end-of-input error. -/
def skipWs : Bool → List Char → Nat → Nat → (List Char × Nat × Nat)
  | _, [], l, c => ([], l, c)
  | false, ch :: rest, l, c =>
    if pyIsSpace ch then
      if ch = '\n' then skipWs false rest (l + 1) 2
      else skipWs false rest l (c + 1)
    else
      match rest with
      | b :: rest2 =>
        if ch = '(' ∧ b = '*' then skipWs true rest2 l (c + 2)
        else (ch :: rest, l, c)
      | [] => (ch :: rest, l, c)
  | true, ch :: rest, l, c =>
    match rest with
    | b :: rest2 =>
      if ch = '*' ∧ b = ')' then skipWs false rest2 l (c + 2)
      else if ch = '\n' then skipWs true (b :: rest2) (l + 1) 2
      else skipWs true (b :: rest2) l (c + 1)
    | [] =>
      if ch = '\n' then skipWs true [] (l + 1) 2
      else skipWs true [] l (c + 1)

/-- The consumption loop of `read_identifier`: split off the longest
prefix of alphanumeric-or-underscore characters. -/
def takeIdent : List Char → (List Char × List Char)
  | [] => ([], [])
  | ch :: rest =>
    if ch.isAlphanum ∨ ch = '_' then
      let (tk, rem) := takeIdent rest
      (ch :: tk, rem)
    else ([], ch :: rest)

/-- The digit-consumption loops of `read_number`. -/
def takeDigits : List Char → (List Char × List Char)
  | [] => ([], [])
  | ch :: rest =>
    if ch.isDigit then
      let (tk, rem) := takeDigits rest
      (ch :: tk, rem)
    else ([], ch :: rest)

/-- The content loop of `read_string`: characters up to the closing
quote, or `none` when the input ends first. -/
def takeUntilQuote : List Char → Option (List Char × List Char)
  | [] => none
  | '"' :: rest => some ([], rest)
  | ch :: rest =>
    match takeUntilQuote rest with
    | none => none
    | some (content, rem) => (some (ch :: content, rem))

/-- The `Lexer.tokenize`: the main loop, one fuel unit per token.  Each
token records the line/column the source records at its `add_token`
call (for identifiers and numbers that is the column after the lexeme,
and the cursor then advances one extra column without consuming input,
reproducing the back-up-then-advance of the source). -/
def tokenize : Nat → List Char → Nat → Nat → List Token → Except PyErr (List Token)
  | 0, _, _, _, _ => .error .fuelOut
  | fuel+1, src, l, c, acc =>
    match skipWs false src l c with
    | ([], l', c') => .ok (acc ++ [⟨.EOF, "", l', c'⟩])
    | (ch :: rest, l', c') =>
      if ch.isAlpha ∨ ch = '_' then
        let (tk, rem) := takeIdent (ch :: rest)
        let value := String.mk tk
        let tokCol := c' + tk.length
        let ttype := (keywordLookup (strUpper value)).getD .IDENTIFIER
        tokenize fuel rem l' (tokCol + 1) (acc ++ [⟨ttype, value, l', tokCol⟩])
      else if ch.isDigit then
        let (intPart, rem1) := takeDigits (ch :: rest)
        match rem1 with
        | '.' :: rem2 =>
          let (fracPart, rem3) := takeDigits rem2
          let value := String.mk (intPart ++ '.' :: fracPart)
          let tokCol := c' + intPart.length + 1 + fracPart.length
          tokenize fuel rem3 l' (tokCol + 1) (acc ++ [⟨.REAL_LITERAL, value, l', tokCol⟩])
        | _ =>
          let value := String.mk intPart
          let tokCol := c' + intPart.length
          tokenize fuel rem1 l' (tokCol + 1) (acc ++ [⟨.INTEGER_LITERAL, value, l', tokCol⟩])
      else if ch = '"' then
        match takeUntilQuote rest with
        | none =>
          .error (.syntaxError ("Unterminated string at line " ++ toString l'
            ++ ", column " ++ toString (c' + 1 + rest.length)))
        | some (content, rem) =>
          let tokCol := c' + 1 + content.length
          tokenize fuel rem l' (tokCol + 1)
            (acc ++ [⟨.STRING_LITERAL, String.mk content, l', tokCol⟩])
      else
        match ch, rest with
        | ':', '=' :: rem => tokenize fuel rem l' (c' + 2) (acc ++ [⟨.ASSIGN, ":=", l', c'⟩])
        | '<', '=' :: rem => tokenize fuel rem l' (c' + 2) (acc ++ [⟨.LESS_EQUAL, "<=", l', c'⟩])
        | '>', '=' :: rem => tokenize fuel rem l' (c' + 2) (acc ++ [⟨.GREATER_EQUAL, ">=", l', c'⟩])
        | ':', rem => tokenize fuel rem l' (c' + 1) (acc ++ [⟨.COLON, ":", l', c'⟩])
        | '<', rem => tokenize fuel rem l' (c' + 1) (acc ++ [⟨.LESS, "<", l', c'⟩])
        | '>', rem => tokenize fuel rem l' (c' + 1) (acc ++ [⟨.GREATER, ">", l', c'⟩])
        | '#', rem => tokenize fuel rem l' (c' + 1) (acc ++ [⟨.NOT_EQUAL, "#", l', c'⟩])
        | '+', rem => tokenize fuel rem l' (c' + 1) (acc ++ [⟨.PLUS, "+", l', c'⟩])
        | '-', rem => tokenize fuel rem l' (c' + 1) (acc ++ [⟨.MINUS, "-", l', c'⟩])
        | '*', rem => tokenize fuel rem l' (c' + 1) (acc ++ [⟨.MULTIPLY, "*", l', c'⟩])
        | '/', rem => tokenize fuel rem l' (c' + 1) (acc ++ [⟨.DIVIDE, "/", l', c'⟩])
        | '=', rem => tokenize fuel rem l' (c' + 1) (acc ++ [⟨.EQUAL, "=", l', c'⟩])
        | ';', rem => tokenize fuel rem l' (c' + 1) (acc ++ [⟨.SEMICOLON, ";", l', c'⟩])
        | ',', rem => tokenize fuel rem l' (c' + 1) (acc ++ [⟨.COMMA, ",", l', c'⟩])
        | '(', rem => tokenize fuel rem l' (c' + 1) (acc ++ [⟨.LPAREN, "(", l', c'⟩])
        | ')', rem => tokenize fuel rem l' (c' + 1) (acc ++ [⟨.RPAREN, ")", l', c'⟩])
        | '[', rem => tokenize fuel rem l' (c' + 1) (acc ++ [⟨.LBRACKET, "[", l', c'⟩])
        | ']', rem => tokenize fuel rem l' (c' + 1) (acc ++ [⟨.RBRACKET, "]", l', c'⟩])
        | '.', rem => tokenize fuel rem l' (c' + 1) (acc ++ [⟨.DOT, ".", l', c'⟩])
        | _, _ =>
          .error (.syntaxError ("Unexpected character " ++ String.mk [ch]
            ++ " at line " ++ toString l' ++ ", column " ++ toString c'))

/-- Run the lexer on a string the way `Lexer.__init__`/`tokenize` is
invoked: cursor starting at line 1, column 1. -/
def tokenizeStr (fuel : Nat) (s : String) : Except PyErr (List Token) :=
  tokenize fuel s.data 1 1 []

end Ob

namespace Ob

/-- The `VarDeclaration` record of ast.py as consumed downstream:
`array_size` is the backwards-compatibility field its constructor
computes. -/
structure VarDeclR where
  name : String
  type : DataType
  array_size : Option Int
deriving DecidableEq, Repr

/-- The third constructor argument of `VarDeclaration` as Python sees
it: `None`, a plain `int` (what parser.py passes), or a list (what the
annotation in ast.py asks for). -/
inductive PyDims where
  | none
  | int (n : Int)
  | list (l : List Int)
deriving DecidableEq, Repr

/-- The `VarDeclaration.__init__` (ast.py): the backwards-compatibility
shim evaluates `array_dimensions and len(array_dimensions) == 1`.
When the parser passes a plain `int`, the truthiness test passes for
any nonzero size and `len` is then applied to an `int`, raising
TypeError; the int 0 is falsy and short-circuits to `None`. -/
def varDeclarationInit (name : String) (ty : DataType) (dims : PyDims) :
    Except PyErr VarDeclR :=
  match dims with
  | .none => .ok ⟨name, ty, none⟩
  | .int n =>
    if n = 0 then .ok ⟨name, ty, none⟩
    else .error (.typeError "object of type int has no len()")
  | .list l =>
    if l.length = 1 then .ok ⟨name, ty, some (l.headD 0)⟩
    else .ok ⟨name, ty, none⟩

/-- The `Parser.expect`: check the current token against the allowed kinds,
consume it, or raise SyntaxError with the expected-set description. -/
def expectTok (toks : List Token) (expected : List TokenType) :
    Except PyErr (Token × List Token) :=
  match toks with
  | [] => .error (.syntaxError "Unexpected end of input")
  | t :: rest =>
    if expected.any (fun ty => decide (ty = t.type)) then .ok (t, rest)
    else
      .error (.syntaxError ("Expected " ++ String.intercalate " or " (expected.map ttValue)
        ++ ", got " ++ ttValue t.type))

/-- The `DataType(type_token.value)`: the enum constructor call on the
token lexeme. -/
def dataTypeOfValue (s : String) : Except PyErr DataType :=
  if s = "INTEGER" then .ok .INTEGER
  else if s = "REAL" then .ok .REAL
  else if s = "STRING" then .ok .STRING
  else if s = "ARRAY" then .ok .ARRAY
  else .error (.valueError (s ++ " is not a valid DataType"))

/-- Decimal value of a digit run (the lexeme shape INTEGER_LITERAL
tokens always have). -/
def digitsVal : List Char → Nat → Option Nat
  | [], acc => some acc
  | c :: rest, acc =>
    if c.isDigit then digitsVal rest (acc * 10 + (c.toNat - 48)) else none

/-- Python `int()` applied to a token lexeme (INTEGER_LITERAL lexemes
are unsigned digit runs, so only those parse). -/
def pyIntOfString (s : String) : Except PyErr Int :=
  match s.data with
  | [] => .error (.valueError ("invalid literal for int: " ++ s))
  | l =>
    match digitsVal l 0 with
    | some n => .ok (n : Int)
    | none => .error (.valueError ("invalid literal for int: " ++ s))

/-- The comma loop collecting further names in `parse_var_declaration`. -/
def parseNamesMore : Nat → List Token → List String → Except PyErr (List String × List Token)
  | 0, _, _ => .error .fuelOut
  | _+1, [], _ => .error (.runtimeError "NoneType has no attribute type")
  | fuel+1, t :: rest, acc =>
    if t.type = .COMMA then
      match expectTok rest [.IDENTIFIER] with
      | .error er => .error er
      | .ok (nt, rest2) => parseNamesMore fuel rest2 (acc ++ [nt.value])
    else .ok (acc, t :: rest)

/-- The per-name constructor loop
(`for name in names: declarations.append(VarDeclaration(...))`). -/
def buildVarDecls (names : List String) (ty : DataType) (dims : PyDims) :
    Except PyErr (List VarDeclR) :=
  match names with
  | [] => .ok []
  | n :: rest =>
    match varDeclarationInit n ty dims with
    | .error er => .error er
    | .ok d =>
      match buildVarDecls rest ty dims with
      | .error er => .error er
      | .ok ds => .ok (d :: ds)

/-- The `while True` group loop of `Parser.parse_var_declaration`
(after the leading VAR has been consumed). -/
def parseVarDeclGroups : Nat → List Token → List VarDeclR →
    Except PyErr (List VarDeclR × List Token)
  | 0, _, _ => .error .fuelOut
  | fuel+1, toks, acc =>
    match expectTok toks [.IDENTIFIER] with
    | .error er => .error er
    | .ok (nt, rest) =>
      match parseNamesMore fuel rest [nt.value] with
      | .error er => .error er
      | .ok (names, rest2) =>
        match expectTok rest2 [.COLON] with
        | .error er => .error er
        | .ok (_, rest3) =>
          match rest3 with
          | [] => .error (.runtimeError "NoneType has no attribute type")
          | t :: rest4 =>
            if t.type = .ARRAY then
              match expectTok rest4 [.LBRACKET] with
              | .error er => .error er
              | .ok (_, rest5) =>
                match expectTok rest5 [.INTEGER_LITERAL] with
                | .error er => .error er
                | .ok (szTok, rest6) =>
                  match pyIntOfString szTok.value with
                  | .error er => .error er
                  | .ok size =>
                    match expectTok rest6 [.RBRACKET] with
                    | .error er => .error er
                    | .ok (_, rest7) =>
                      match expectTok rest7 [.OF] with
                      | .error er => .error er
                      | .ok (_, rest8) =>
                        match expectTok rest8 [.INTEGER, .REAL, .STRING] with
                        | .error er => .error er
                        | .ok (tyTok, rest9) =>
                          match dataTypeOfValue tyTok.value with
                          | .error er => .error er
                          | .ok ty =>
                            match buildVarDecls names ty (.int size) with
                            | .error er => .error er
                            | .ok ds =>
                              match expectTok rest9 [.SEMICOLON] with
                              | .error er => .error er
                              | .ok (_, rest10) =>
                                match rest10 with
                                | [] => .error (.runtimeError "NoneType has no attribute type")
                                | t2 :: rest11 =>
                                  if t2.type = .IDENTIFIER then
                                    parseVarDeclGroups fuel (t2 :: rest11) (acc ++ ds)
                                  else .ok (acc ++ ds, t2 :: rest11)
            else
              match expectTok (t :: rest4) [.INTEGER, .REAL, .STRING] with
              | .error er => .error er
              | .ok (tyTok, rest5) =>
                match dataTypeOfValue tyTok.value with
                | .error er => .error er
                | .ok ty =>
                  match buildVarDecls names ty .none with
                  | .error er => .error er
                  | .ok ds =>
                    match expectTok rest5 [.SEMICOLON] with
                    | .error er => .error er
                    | .ok (_, rest6) =>
                      match rest6 with
                      | [] => .error (.runtimeError "NoneType has no attribute type")
                      | t2 :: rest7 =>
                        if t2.type = .IDENTIFIER then
                          parseVarDeclGroups fuel (t2 :: rest7) (acc ++ ds)
                        else .ok (acc ++ ds, t2 :: rest7)

/-- The `Parser.parse_var_declaration`: consume VAR, then the group loop. -/
def parseVarDeclaration (fuel : Nat) (toks : List Token) :
    Except PyErr (List VarDeclR × List Token) :=
  match expectTok toks [.VAR] with
  | .error er => .error er
  | .ok (_, rest) => parseVarDeclGroups fuel rest []

/-- The `n` consecutive integers starting at `a`. -/
def intRangeAux (a : Int) : Nat → List Int
  | 0 => []
  | n + 1 => a :: intRangeAux (a + 1) n

/-- The loop-variable value sequence `a, a+1, …, b` demanded by the
FOR-loop specification (empty when `a > b`). -/
def intRange (a b : Int) : List Int :=
  intRangeAux a (b + 1 - a).toNat

/-- Specification-side fold for the FOR-loop claim: one execution of
`body` per element of the value list, with the loop variable stored
back as `i + 1` after the body, burning fuel exactly as the
interpreter's loop does. -/
def forIterSpec (procs : ProcTable) (v : String) (body : Stmt) :
    Nat → List Int → IState → Res Unit
  | 0, _, s => .err .fuelOut s
  | _+1, [], s => .ok () s
  | fuel+1, i :: rest, s =>
    match execStmt fuel procs body s with
    | .err er s' => .err er s'
    | .ok () s' =>
      match scopesSet s'.scopes v ⟨.int (i + 1), .INTEGER⟩ with
      | .error er => .err er s'
      | .ok sc => forIterSpec procs v body fuel rest { s' with scopes := sc }

/-- Whether the remaining input ever closes a comment: the textual
test the comment loop of `skip_whitespace` performs. -/
def hasCommentClose : List Char → Bool
  | [] => false
  | _ :: [] => false
  | a :: b :: rest => (a = '*' && b = ')') || hasCommentClose (b :: rest)

/-- The first top-level statement of a function body that the
result-scan of `evaluate_expression` stops at, as a plain search
(specification-side restatement of `findResultExpr` used to phrase the
amended claim). -/
def firstResultAssign (stmts : List Stmt) : Option Expr :=
  (stmts.filterMap (fun st =>
    match st with
    | .assign (.name n) e => if n = "result" then some e else Option.none
    | _ => Option.none)).head?

end Ob

namespace Ob

/-- Projection of a successful run to its output stream. -/
def runOutput (fuel : Nat) (p : Program) : Option (List String) :=
  match interpret fuel p with
  | .ok out _ => some out
  | .err _ _ => none

/-- Read a variable from the final state of a successful run. -/
def finalVar (fuel : Nat) (p : Program) (n : String) : Option RuntimeValue :=
  match interpret fuel p with
  | .ok _ s =>
    match scopesGet s.scopes n with
    | .ok rv => some rv
    | .error _ => none
  | .err _ _ => none

/-- Lex a source string, then run `parse_var_declaration` on the
resulting token stream (the way `parse_program` reaches it for a
module whose declaration section starts with VAR). -/
def lexAndParseVarDecl (s : String) : Except PyErr (List VarDeclR × List Token) :=
  match tokenizeStr 100 s with
  | .ok ts => parseVarDeclaration 100 ts
  | .error e => .error e

/-- The module of claim C3: the same name declared twice in the global
scope, a STRING assigned to an INTEGER variable, and a call to an
undefined procedure — three independent semantic errors. -/
def progC3 : Program :=
  { name := "Test"
  , declarations :=
      [ .varD "x" .INTEGER none
      , .varD "x" .INTEGER none
      , .varD "y" .INTEGER none ]
  , statements :=
      [ .assign (.name "y") (.lit (.str "s") .STRING)
      , .procCall "Foo" [] ] }

/-- The module of claim C4: function `F` whose body first calls
`Write("X")` and then assigns `42` to `result`; the module assigns
`F()` to `y` and writes `y`. -/
def progC4 : Program :=
  { name := "M"
  , declarations :=
      [ .procD "F" [] (some .INTEGER) []
          [ .procCall "Write" [.lit (.str "X") .STRING]
          , .assign (.name "result") (.lit (.int 42) .INTEGER) ]
      , .varD "y" .INTEGER none ]
  , statements :=
      [ .assign (.name "y") (.call "F" [])
      , .procCall "Write" [.var "y"] ] }

/-- The module of claim C7 parameterized by the caller value `w`:
procedure `P(x: INTEGER)` whose body is `x := x + 1`, called on the
global `k` previously set to `w`, followed by `Write(k)`. -/
def progC7 (w : Int) : Program :=
  { name := "M"
  , declarations :=
      [ .procD "P" [⟨"x", .INTEGER, false⟩] none []
          [ .assign (.name "x") (.bin (.var "x") "+" (.lit (.int 1) .INTEGER)) ]
      , .varD "k" .INTEGER none ]
  , statements :=
      [ .assign (.name "k") (.lit (.int w) .INTEGER)
      , .procCall "P" [.var "k"]
      , .procCall "Write" [.var "k"] ] }

/-- The function `F` of `progC4` as a procedure-table entry. -/
def procF : ProcData :=
  ⟨"F", [], some .INTEGER, [],
    [ .procCall "Write" [.lit (.str "X") .STRING]
    , .assign (.name "result") (.lit (.int 42) .INTEGER) ]⟩

/-- A procedure table holding only `F`. -/
def procsC4 : ProcTable := [("F", procF)]

end Ob

namespace Ob

/-! Helper lemmas shared by the claim theorems. -/

theorem frameLookup_setValue (fr : Frame) (n : String) (rv : RuntimeValue) (sym : RSymbol)
    (h : frameLookup fr n = some sym) :
    frameLookup (frameSetValue fr n rv) n = some { sym with runtime_value := some rv } := by
  induction fr with
  | nil => simp [frameLookup] at h
  | cons p rest ih =>
    obtain ⟨k, sy⟩ := p
    by_cases hk : k = n
    · subst hk
      simp [frameLookup] at h
      subst h
      simp [frameSetValue, frameLookup]
    · simp only [frameLookup, if_neg hk] at h
      simpa [frameSetValue, frameLookup, hk] using ih h

theorem scopesGet_cons_none (f : Frame) (rest : List Frame) (n : String)
    (h : frameLookup f n = none) : scopesGet (f :: rest) n = scopesGet rest n := by
  simp only [scopesGet, scopesLookup, h]

/-- A value just stored by `set_variable` is what `get_variable` then reads. -/
theorem scopesSet_get (frames : List Frame) (fr2 : List Frame) (n : String) (rv : RuntimeValue)
    (h : scopesSet frames n rv = .ok fr2) : scopesGet fr2 n = .ok rv := by
  induction frames generalizing fr2 with
  | nil => simp [scopesSet] at h
  | cons f rest ih =>
    unfold scopesSet at h
    cases hf : frameLookup f n with
    | some sym =>
      rw [hf] at h
      by_cases hc : sym.is_constant
      · simp [hc] at h
      · simp [hc] at h
        subst h
        simp only [scopesGet, scopesLookup, frameLookup_setValue f n rv sym hf]
    | none =>
      rw [hf] at h
      cases hr : scopesSet rest n rv with
      | error e => rw [hr] at h; simp [Except.map] at h
      | ok rest2 =>
        rw [hr] at h
        simp [Except.map] at h
        subst h
        rw [scopesGet_cons_none f rest2 n hf]
        exact ih rest2 hr

theorem intRange_nil (a b : Int) (h : b < a) : intRange a b = [] := by
  unfold intRange
  have h1 : (b + 1 - a).toNat = 0 := by omega
  rw [h1]
  rfl

theorem intRange_cons (a b : Int) (h : a ≤ b) : intRange a b = a :: intRange (a + 1) b := by
  unfold intRange
  have h1 : (b + 1 - a).toNat = (b + 1 - (a + 1)).toNat + 1 := by omega
  rw [h1]
  rfl

theorem intRangeAux_length (a : Int) (n : Nat) : (intRangeAux a n).length = n := by
  induction n generalizing a with
  | zero => rfl
  | succ m ih => simp [intRangeAux, ih]

theorem intRangeAux_getD (n : Nat) : ∀ (a : Int) (k : Nat), k < n →
    (intRangeAux a n).getD k 0 = a + k := by
  induction n with
  | zero => intro a k h; omega
  | succ m ih =>
    intro a k h
    cases k with
    | zero => simp [intRangeAux]
    | succ j =>
      have h2 := ih (a + 1) j (by omega)
      simp only [intRangeAux, List.getD_cons_succ]
      rw [h2]
      omega

/-- One unfolding of the FOR while-loop (the `forLoop` marker case of
`execStmt`), stated as an equation. -/
theorem execStmt_forLoop_step (fuel : Nat) (procs : ProcTable) (v : String) (endv : Int)
    (body : Stmt) (s : IState) :
    execStmt (fuel + 1) procs (.forLoop v endv body) s =
      match scopesGet s.scopes v with
      | .error er => .err er s
      | .ok cur =>
        match pyGt cur.value (.int endv) with
        | .error er => .err er s
        | .ok true => .ok () s
        | .ok false =>
          match execStmt fuel procs body s with
          | .err er s' => .err er s'
          | .ok () s' =>
            match pyAdd cur.value (.int 1) with
            | .error er => .err er s'
            | .ok nv =>
              match scopesSet s'.scopes v ⟨nv, .INTEGER⟩ with
              | .error er => .err er s'
              | .ok sc => execStmt fuel procs (.forLoop v endv body) { s' with scopes := sc } := rfl

theorem forIterSpec_nil (procs : ProcTable) (v : String) (body : Stmt) (fuel : Nat)
    (s : IState) : forIterSpec procs v body (fuel + 1) [] s = .ok () s := rfl

theorem forIterSpec_cons (procs : ProcTable) (v : String) (body : Stmt) (fuel : Nat)
    (i : Int) (rest : List Int) (s : IState) :
    forIterSpec procs v body (fuel + 1) (i :: rest) s =
      match execStmt fuel procs body s with
      | .err er s' => .err er s'
      | .ok () s' =>
        match scopesSet s'.scopes v ⟨.int (i + 1), .INTEGER⟩ with
        | .error er => .err er s'
        | .ok sc => forIterSpec procs v body fuel rest { s' with scopes := sc } := rfl

/-- The running FOR loop equals the specification fold over the value
list `intRange c b`, where `c` is the current value of the loop
variable: the interpreter executes the body once per element, in
order, storing `i + 1` after the body of iteration `i`. -/
theorem forLoop_eq_iterSpec (procs : ProcTable) (v : String) (b : Int) (body : Stmt) :
    ∀ (fuel : Nat) (s : IState) (c : Int) (ty : DataType),
      scopesGet s.scopes v = .ok ⟨.int c, ty⟩ →
      execStmt fuel procs (.forLoop v b body) s
        = forIterSpec procs v body fuel (intRange c b) s := by
  intro fuel
  induction fuel with
  | zero => intro s c ty h; rfl
  | succ f ih =>
    intro s c ty h
    rw [execStmt_forLoop_step, h]
    by_cases hcb : b < c
    · rw [intRange_nil c b hcb, forIterSpec_nil]
      simp [pyGt, pyLt, hcb]
    · rw [intRange_cons c b (by omega), forIterSpec_cons]
      simp only [pyGt, pyLt]
      rw [decide_eq_false hcb]
      cases hb : execStmt f procs body s with
      | err e s' => simp
      | ok a s' =>
        cases a
        simp only [pyAdd]
        cases hset : scopesSet s'.scopes v ⟨.int (c + 1), .INTEGER⟩ with
        | error e => simp
        | ok sc =>
          simp only []
          exact ih { s' with scopes := sc } (c + 1) .INTEGER (scopesSet_get _ _ _ _ hset)

/-- After the FOR while-loop finishes normally, the loop variable holds
`max c (b + 1)` where `c` was its value at loop entry. -/
theorem forLoop_final (procs : ProcTable) (v : String) (b : Int) (body : Stmt) :
    ∀ (fuel : Nat) (s s' : IState) (c : Int),
      scopesGet s.scopes v = .ok ⟨.int c, .INTEGER⟩ →
      execStmt fuel procs (.forLoop v b body) s = .ok () s' →
      scopesGet s'.scopes v = .ok ⟨.int (max c (b + 1)), .INTEGER⟩ := by
  intro fuel
  induction fuel with
  | zero => intro s s' c h hrun; exact absurd hrun (by simp [execStmt])
  | succ f ih =>
    intro s s' c h hrun
    rw [execStmt_forLoop_step, h] at hrun
    by_cases hcb : b < c
    · simp only [pyGt, pyLt, decide_eq_true hcb] at hrun
      cases hrun
      rw [h, max_eq_left (by omega : b + 1 ≤ c)]
    · simp only [pyGt, pyLt, decide_eq_false hcb] at hrun
      cases hb : execStmt f procs body s with
      | err e s1 => rw [hb] at hrun; cases hrun
      | ok a s1 =>
        cases a
        rw [hb] at hrun
        simp only [pyAdd] at hrun
        cases hset : scopesSet s1.scopes v ⟨.int (c + 1), .INTEGER⟩ with
        | error e => rw [hset] at hrun; cases hrun
        | ok sc =>
          rw [hset] at hrun
          have h2 := ih { s1 with scopes := sc } s' (c + 1) (scopesSet_get _ _ _ _ hset) hrun
          rw [h2, max_eq_right (by omega : c + 1 ≤ b + 1),
            max_eq_right (by omega : c ≤ b + 1)]

/-- One unfolding of `execute_for_statement` up to the loop entry. -/
theorem execStmt_forS_step (fuel : Nat) (procs : ProcTable) (v : String)
    (start stop : Expr) (body : Stmt) (s : IState) :
    execStmt (fuel + 1) procs (.forS v start stop body) s =
      match evalExpr fuel procs s.scopes start with
      | .error er => .err er s
      | .ok sv =>
        match evalExpr fuel procs s.scopes stop with
        | .error er => .err er s
        | .ok ev =>
          match sv.value, ev.value with
          | .int a, .int b =>
            match scopesSet s.scopes v ⟨.int a, .INTEGER⟩ with
            | .error er => .err er s
            | .ok sc => execStmt fuel procs (.forLoop v b body) { s with scopes := sc }
          | _, _ => .err (.typeError "For loop bounds must be integers") s := rfl

/-- One unfolding of the BinaryExpression case of `analyze_expression`. -/
theorem analyzeExpression_bin_step (fuel : Nat) (st : AState) (l : Expr) (op : String)
    (r : Expr) :
    analyzeExpression (fuel + 1) st (.bin l op r) =
      match analyzeExpression fuel st l with
      | .error er => .error er
      | .ok lt =>
        match analyzeExpression fuel st r with
        | .error er => .error er
        | .ok rt =>
          if ¬ isTypeCompatible lt rt then
            .error (.typeError ("Type mismatch in binary operation: "
              ++ dtValue lt ++ " " ++ op ++ " " ++ dtValue rt))
          else if op = "+" ∨ op = "-" ∨ op = "*" ∨ op = "/" ∨ op = "DIV" ∨ op = "MOD" then
            if lt = .REAL ∨ rt = .REAL then .ok .REAL else .ok .INTEGER
          else .ok .INTEGER := rfl

/-- The result scan of the interpreter agrees with the plain
first-assignment-to-result search. -/
theorem findResultExpr_eq_firstResultAssign (stmts : List Stmt) :
    findResultExpr stmts = firstResultAssign stmts := by
  induction stmts with
  | nil => rfl
  | cons st rest ih =>
    cases st with
    | assign target e =>
      cases target with
      | name n =>
        by_cases hn : n = "result"
        · simp only [findResultExpr, firstResultAssign, List.filterMap_cons, if_pos hn]
          rfl
        · simp only [findResultExpr, firstResultAssign, List.filterMap_cons, if_neg hn]
          simpa only [firstResultAssign] using ih
      | arr nm idx =>
        simp only [findResultExpr, firstResultAssign, List.filterMap_cons]
        simpa only [firstResultAssign] using ih
    | procCall nm args =>
      simp only [findResultExpr, firstResultAssign, List.filterMap_cons]
      simpa only [firstResultAssign] using ih
    | ifS c t e =>
      simp only [findResultExpr, firstResultAssign, List.filterMap_cons]
      simpa only [firstResultAssign] using ih
    | whileS c b =>
      simp only [findResultExpr, firstResultAssign, List.filterMap_cons]
      simpa only [firstResultAssign] using ih
    | forS v a b bd =>
      simp only [findResultExpr, firstResultAssign, List.filterMap_cons]
      simpa only [firstResultAssign] using ih
    | compound ls =>
      simp only [findResultExpr, firstResultAssign, List.filterMap_cons]
      simpa only [firstResultAssign] using ih
    | forLoop v b bd =>
      simp only [findResultExpr, firstResultAssign, List.filterMap_cons]
      simpa only [firstResultAssign] using ih

/-- One unfolding of the FunctionCall case of `evaluate_expression`. -/
theorem evalExpr_call_step (fuel : Nat) (procs : ProcTable) (frames : List Frame)
    (name : String) (args : List Expr) :
    evalExpr (fuel + 1) procs frames (.call name args) =
      match procsLookup procs name with
      | none => .error (.nameError ("Function " ++ name ++ " not defined"))
      | some proc =>
        match proc.return_type with
        | none => .error (.typeError (name ++ " is a procedure, not a function"))
        | some _ =>
          match bindParams fuel procs ([] :: frames) (args.zip proc.parameters) with
          | .error er => .error er
          | .ok frames2 =>
            match findResultExpr proc.statements with
            | some rexpr => evalExpr fuel procs frames2 rexpr
            | none =>
              .error (.runtimeError ("Function " ++ name ++ " did not return a value")) := rfl

/-- Inside a comment that is never closed, `skip_whitespace` consumes
the whole remaining input. -/
theorem skipWs_true_no_close : ∀ (s : List Char) (l c : Nat),
    hasCommentClose s = false → (skipWs true s l c).1 = [] := by
  intro s
  induction s with
  | nil => intro l c h; rfl
  | cons ch rest ih =>
    intro l c h
    cases rest with
    | nil =>
      by_cases hn : ch = '\n' <;> simp [skipWs, hn]
    | cons b rest2 =>
      unfold hasCommentClose at h
      have h1 : ¬(ch = '*' ∧ b = ')') := by
        intro hc
        rw [hc.1, hc.2] at h
        simp at h
      have h2 : hasCommentClose (b :: rest2) = false := by
        rcases Bool.or_eq_false_iff.mp h with ⟨_, h2⟩
        exact h2
      rw [skipWs]
      rw [if_neg h1]
      by_cases hn : ch = '\n' <;> simp only [hn, if_pos, if_neg, reduceIte] <;> exact ih _ _ h2

end Ob

namespace Ob

/-- C1: for every `FOR v := start TO stop DO body END` whose bounds
evaluate to integers `a` and `b` (and whose loop variable accepts the
initial store), execution equals the fold `forIterSpec` over the value
list `intRange a b`: the body runs exactly once per element, in order,
with the loop variable stored as `a` before the first iteration and as
`i + 1` right after the body of iteration `i`, so it holds `i` when
the body of iteration `i` starts.  The value list has length
`max 0 (b − a + 1)`, is empty when `a > b`, and its `k`-th element is
`a + k`. -/
theorem C1_for_loop_runs_body_for_each_value (fuel : Nat) (procs : ProcTable)
    (v : String) (start stop : Expr) (body : Stmt) (s : IState)
    (a b : Int) (ta tb : DataType) (sc : List Frame)
    (hstart : evalExpr fuel procs s.scopes start = .ok ⟨.int a, ta⟩)
    (hstop : evalExpr fuel procs s.scopes stop = .ok ⟨.int b, tb⟩)
    (hset : scopesSet s.scopes v ⟨.int a, .INTEGER⟩ = .ok sc) :
    execStmt (fuel + 1) procs (.forS v start stop body) s
        = forIterSpec procs v body fuel (intRange a b) { s with scopes := sc }
      ∧ ((intRange a b).length : Int) = max 0 (b - a + 1)
      ∧ (b < a → intRange a b = [])
      ∧ (∀ k : Nat, k < (intRange a b).length → (intRange a b).getD k 0 = a + k) := by
  refine ⟨?_, ?_, fun hab => intRange_nil a b hab, ?_⟩
  · rw [execStmt_forS_step, hstart, hstop]
    dsimp only
    rw [hset]
    exact forLoop_eq_iterSpec procs v b body fuel _ a .INTEGER
      (by simpa using scopesSet_get _ _ _ _ hset)
  · unfold intRange
    rw [intRangeAux_length]
    omega
  · intro k hk
    unfold intRange at hk ⊢
    rw [intRangeAux_length] at hk
    exact intRangeAux_getD _ a k hk

/-- Witness for C1 at the concrete loop `FOR i := 1 TO 2 DO WriteLn() END`. -/
theorem C1_witness :
    evalExpr 10 [] (IState.mk [[("i", ⟨"i", .INTEGER, false, some ⟨.int 0, .INTEGER⟩⟩)]] []).scopes
        (.lit (.int 1) .INTEGER) = .ok ⟨.int 1, .INTEGER⟩
  ∧ evalExpr 10 [] (IState.mk [[("i", ⟨"i", .INTEGER, false, some ⟨.int 0, .INTEGER⟩⟩)]] []).scopes
        (.lit (.int 2) .INTEGER) = .ok ⟨.int 2, .INTEGER⟩
  ∧ scopesSet (IState.mk [[("i", ⟨"i", .INTEGER, false, some ⟨.int 0, .INTEGER⟩⟩)]] []).scopes
        "i" ⟨.int 1, .INTEGER⟩
      = .ok [[("i", ⟨"i", .INTEGER, false, some ⟨.int 1, .INTEGER⟩⟩)]]
  ∧ (execStmt (10 + 1) [] (.forS "i" (.lit (.int 1) .INTEGER) (.lit (.int 2) .INTEGER)
          (.procCall "WriteLn" []))
        (IState.mk [[("i", ⟨"i", .INTEGER, false, some ⟨.int 0, .INTEGER⟩⟩)]] [])
        = forIterSpec [] "i" (.procCall "WriteLn" []) 10 (intRange 1 2)
            { IState.mk [[("i", ⟨"i", .INTEGER, false, some ⟨.int 0, .INTEGER⟩⟩)]] [] with
              scopes := [[("i", ⟨"i", .INTEGER, false, some ⟨.int 1, .INTEGER⟩⟩)]] }
      ∧ ((intRange 1 2).length : Int) = max 0 (2 - 1 + 1)
      ∧ ((2 : Int) < 1 → intRange 1 2 = [])
      ∧ (∀ k : Nat, k < (intRange 1 2).length → (intRange 1 2).getD k 0 = 1 + k)) :=
  ⟨rfl, rfl, rfl,
    C1_for_loop_runs_body_for_each_value 10 [] "i" (.lit (.int 1) .INTEGER)
      (.lit (.int 2) .INTEGER) (.procCall "WriteLn" [])
      (IState.mk [[("i", ⟨"i", .INTEGER, false, some ⟨.int 0, .INTEGER⟩⟩)]] [])
      1 2 .INTEGER .INTEGER [[("i", ⟨"i", .INTEGER, false, some ⟨.int 1, .INTEGER⟩⟩)]]
      rfl rfl rfl⟩

/-- C9: when a `FOR v := start TO stop DO body END` with integer
bounds `a`, `b` finishes normally, the loop variable holds
`max a (b + 1)`: `b + 1` when the loop ran at least once (the
increment is stored before the failing exit test), and the unchanged
initial store `a` when `a > b`. -/
theorem C9_for_final_loop_variable (fuel : Nat) (procs : ProcTable)
    (v : String) (start stop : Expr) (body : Stmt) (s s' : IState)
    (a b : Int) (ta tb : DataType)
    (hstart : evalExpr fuel procs s.scopes start = .ok ⟨.int a, ta⟩)
    (hstop : evalExpr fuel procs s.scopes stop = .ok ⟨.int b, tb⟩)
    (hrun : execStmt (fuel + 1) procs (.forS v start stop body) s = .ok () s') :
    scopesGet s'.scopes v = .ok ⟨.int (max a (b + 1)), .INTEGER⟩ := by
  rw [execStmt_forS_step, hstart, hstop] at hrun
  dsimp only at hrun
  cases hset : scopesSet s.scopes v ⟨.int a, .INTEGER⟩ with
  | error e => rw [hset] at hrun; cases hrun
  | ok sc =>
    rw [hset] at hrun
    exact forLoop_final procs v b body fuel _ s' a
      (by simpa using scopesSet_get _ _ _ _ hset) hrun

/-- Witness for C9: after `FOR i := 1 TO 2 DO WriteLn() END`, `i` holds
`max 1 (2 + 1) = 3`. -/
theorem C9_witness :
    evalExpr 10 [] (IState.mk [[("i", ⟨"i", .INTEGER, false, some ⟨.int 0, .INTEGER⟩⟩)]] []).scopes
        (.lit (.int 1) .INTEGER) = .ok ⟨.int 1, .INTEGER⟩
  ∧ evalExpr 10 [] (IState.mk [[("i", ⟨"i", .INTEGER, false, some ⟨.int 0, .INTEGER⟩⟩)]] []).scopes
        (.lit (.int 2) .INTEGER) = .ok ⟨.int 2, .INTEGER⟩
  ∧ execStmt (10 + 1) [] (.forS "i" (.lit (.int 1) .INTEGER) (.lit (.int 2) .INTEGER)
        (.procCall "WriteLn" []))
      (IState.mk [[("i", ⟨"i", .INTEGER, false, some ⟨.int 0, .INTEGER⟩⟩)]] [])
      = .ok () (IState.mk [[("i", ⟨"i", .INTEGER, false, some ⟨.int 3, .INTEGER⟩⟩)]] ["\n", "\n"])
  ∧ scopesGet (IState.mk [[("i", ⟨"i", .INTEGER, false, some ⟨.int 3, .INTEGER⟩⟩)]] ["\n", "\n"]).scopes
        "i" = .ok ⟨.int (max 1 (2 + 1)), .INTEGER⟩ :=
  ⟨rfl, rfl, rfl,
    C9_for_final_loop_variable 10 [] "i" (.lit (.int 1) .INTEGER) (.lit (.int 2) .INTEGER)
      (.procCall "WriteLn" [])
      (IState.mk [[("i", ⟨"i", .INTEGER, false, some ⟨.int 0, .INTEGER⟩⟩)]] [])
      (IState.mk [[("i", ⟨"i", .INTEGER, false, some ⟨.int 3, .INTEGER⟩⟩)]] ["\n", "\n"])
      1 2 .INTEGER .INTEGER rfl rfl rfl⟩

/-- C10: at the evaluator interface, `Write()` with zero arguments
raises TypeError "Write requires at least one argument" with the state
(in particular the output stream) unchanged, while `WriteLn()` with
zero arguments succeeds and appends exactly one newline. -/
theorem C10_write_zero_args (fuel : Nat) (procs : ProcTable) (s : IState) :
    execStmt (fuel + 1) procs (.procCall "Write" []) s
        = .err (.typeError "Write requires at least one argument") s
      ∧ execStmt (fuel + 1) procs (.procCall "WriteLn" []) s
        = .ok () { s with output := s.output ++ ["\n"] } := ⟨rfl, rfl⟩

/-- C7: the value parameter of a user procedure does not alias the
caller's variable: for every initial value `w`, running the module
`k := w; P(k); Write(k)` where `P(x: INTEGER)` sets `x := x + 1`
outputs `w` itself, and `k` still holds `w` afterwards. -/
theorem C7_value_parameter_no_aliasing (w : Int) :
    runOutput 50 (progC7 w) = some [toString w]
  ∧ finalVar 50 (progC7 w) "k" = some ⟨.int w, .INTEGER⟩ := ⟨rfl, rfl⟩

end Ob

namespace Ob

/-- Counterexample to C2: the analyzer gives `7 / 2` with INTEGER
operands the static type INTEGER, not REAL. -/
theorem C2_counterexample :
    analyzeExpression 10 ⟨[[]], builtinProcs⟩
        (.bin (.lit (.int 7) .INTEGER) "/" (.lit (.int 2) .INTEGER)) = .ok .INTEGER
  ∧ analyzeExpression 10 ⟨[[]], builtinProcs⟩
        (.bin (.lit (.int 7) .INTEGER) "/" (.lit (.int 2) .INTEGER)) ≠ .ok .REAL := by
  have ha : analyzeExpression 10 ⟨[[]], builtinProcs⟩
      (.bin (.lit (.int 7) .INTEGER) "/" (.lit (.int 2) .INTEGER)) = .ok .INTEGER := rfl
  refine ⟨ha, ?_⟩
  intro h
  rw [ha] at h
  simp at h

/-- C2 amended: the evaluator always produces a REAL result for `/`
(on any numeric operands, via float coercion), but the analyzer
assigns `/` the static type INTEGER when both operand types are
INTEGER (REAL only when an operand is REAL). -/
theorem C2_division_types (fuel : Nat) (st : AState) (l r : Expr)
    (hl : analyzeExpression fuel st l = .ok .INTEGER)
    (hr : analyzeExpression fuel st r = .ok .INTEGER)
    (x y : PyVal) (tx ty : DataType) (qa qb : Rat)
    (hx : pyFloat x = .ok qa) (hy : pyFloat y = .ok qb) (hqb : qb ≠ 0) :
    analyzeExpression (fuel + 1) st (.bin l "/" r) = .ok .INTEGER
  ∧ evalBinary ⟨x, tx⟩ "/" ⟨y, ty⟩ = .ok ⟨.real (qa / qb), .REAL⟩ := by
  constructor
  · rw [analyzeExpression_bin_step, hl, hr]
    simp [isTypeCompatible]
  · unfold evalBinary
    rw [if_neg (by decide : ¬("/" : String) = "+"), if_neg (by decide : ¬("/" : String) = "-"),
      if_neg (by decide : ¬("/" : String) = "*"), if_pos (rfl : ("/" : String) = "/")]
    rw [show (⟨x, tx⟩ : RuntimeValue).value = x from rfl,
      show (⟨y, ty⟩ : RuntimeValue).value = y from rfl]
    rw [hx, hy]
    simp only [Except.bind, bind]
    rw [if_neg hqb]

/-- Witness for C2 at `x = 7`, `y = 2`: statically INTEGER, dynamically
the real 7/2 = 3.5. -/
theorem C2_witness :
    analyzeExpression 9 ⟨[[]], builtinProcs⟩ (.lit (.int 7) .INTEGER) = .ok .INTEGER
  ∧ analyzeExpression 9 ⟨[[]], builtinProcs⟩ (.lit (.int 2) .INTEGER) = .ok .INTEGER
  ∧ pyFloat (.int 7) = .ok 7
  ∧ pyFloat (.int 2) = .ok 2
  ∧ ((2 : Rat) ≠ 0)
  ∧ ((7 : Rat) / 2 = 3.5)
  ∧ (analyzeExpression (9 + 1) ⟨[[]], builtinProcs⟩
        (.bin (.lit (.int 7) .INTEGER) "/" (.lit (.int 2) .INTEGER)) = .ok .INTEGER
      ∧ evalBinary ⟨.int 7, .INTEGER⟩ "/" ⟨.int 2, .INTEGER⟩
          = .ok ⟨.real ((7 : Rat) / 2), .REAL⟩) :=
  ⟨rfl, rfl, rfl, rfl, by norm_num, by norm_num,
    C2_division_types 9 ⟨[[]], builtinProcs⟩ (.lit (.int 7) .INTEGER) (.lit (.int 2) .INTEGER)
      rfl rfl (.int 7) (.int 2) .INTEGER .INTEGER 7 2 rfl rfl (by norm_num)⟩

/-- Counterexample to C3: a module with three independent semantic
errors (duplicate declaration of `x`, STRING assigned to INTEGER `y`,
call of undefined `Foo`) yields a single diagnostic, not three — the
analyzer stops at the first raised error. -/
theorem C3_counterexample :
    analyze 50 progC3 = ["Semantic error: Symbol x already defined in this scope"]
  ∧ (analyze 50 progC3).length = 1 := ⟨rfl, rfl⟩

/-- C3 amended: `analyze` wraps the whole traversal in one try/except
appending at most one formatted message, so the returned diagnostic
list never holds more than one entry, for any program. -/
theorem C3_at_most_one_diagnostic (fuel : Nat) (p : Program) :
    (analyze fuel p).length ≤ 1 := by
  unfold analyze
  cases analyzeProgram fuel p <;> simp

/-- Counterexample to C4: evaluating `y := F()` where the body of `F`
is `Write("X"); result := 42` leaves the output without the "X" the
claimed body execution would have appended — the module prints only
`42`. -/
theorem C4_counterexample :
    runOutput 50 progC4 = some ["42"]
  ∧ ∀ out, runOutput 50 progC4 = some out → "X" ∉ out := by
  refine ⟨rfl, ?_⟩
  intro out hout
  rw [show runOutput 50 progC4 = some ["42"] from rfl] at hout
  cases hout
  decide

/-- C4 amended: a function call in expression position pushes a fresh
callee scope, binds the parameters there, and then only scans the
top-level body statements for the first assignment to `result`,
evaluating that expression in the callee scope; no body statement is
executed, so no Write side effect occurs (expression evaluation cannot
touch the output stream), and a missing `result` assignment raises
RuntimeError. -/
theorem C4_call_scans_first_result_assignment (fuel : Nat) (procs : ProcTable)
    (frames : List Frame) (name : String) (args : List Expr) (proc : ProcData)
    (rt : DataType)
    (hp : procsLookup procs name = some proc)
    (hrt : proc.return_type = some rt) :
    evalExpr (fuel + 1) procs frames (.call name args)
      = (match bindParams fuel procs ([] :: frames) (args.zip proc.parameters) with
         | .error er => .error er
         | .ok frames2 =>
           match firstResultAssign proc.statements with
           | some rexpr => evalExpr fuel procs frames2 rexpr
           | none =>
             .error (.runtimeError ("Function " ++ name ++ " did not return a value"))) := by
  rw [evalExpr_call_step, hp]
  dsimp only
  rw [hrt, findResultExpr_eq_firstResultAssign]

/-- Witness for C4 at the function `F` of `progC4`. -/
theorem C4_witness :
    procsLookup procsC4 "F" = some procF
  ∧ procF.return_type = some .INTEGER
  ∧ evalExpr (10 + 1) procsC4 [[]] (.call "F" [])
      = (match bindParams 10 procsC4 ([] :: [[]]) (List.zip [] procF.parameters) with
         | .error er => .error er
         | .ok frames2 =>
           match firstResultAssign procF.statements with
           | some rexpr => evalExpr 10 procsC4 frames2 rexpr
           | none =>
             .error (.runtimeError ("Function " ++ "F" ++ " did not return a value"))) :=
  ⟨rfl, rfl,
    C4_call_scans_first_result_assignment 10 procsC4 [[]] "F" [] procF .INTEGER rfl rfl⟩

end Ob

namespace Ob

/-- Counterexample to C5: the analyzer rejects `"a" + 1` — a `+` with
one STRING operand — as a type mismatch instead of accepting it with
type STRING. -/
theorem C5_counterexample :
    analyzeExpression 10 ⟨[[]], builtinProcs⟩
        (.bin (.lit (.str "a") .STRING) "+" (.lit (.int 1) .INTEGER))
      = .error (.typeError "Type mismatch in binary operation: STRING + INTEGER") := rfl

/-- C5 amended: the evaluator does return the concatenation of the
textual forms whenever either operand value is tagged STRING; the
analyzer, however, rejects `+` between STRING and a non-STRING operand
as a type mismatch, and assigns even STRING `+` STRING the static type
INTEGER (never STRING). -/
theorem C5_string_concat_semantics (lv rv : RuntimeValue)
    (h : lv.type = .STRING ∨ rv.type = .STRING)
    (fuel : Nat) (st : AState) (l rs ri : Expr)
    (hl : analyzeExpression fuel st l = .ok .STRING)
    (hrs : analyzeExpression fuel st rs = .ok .STRING)
    (hri : analyzeExpression fuel st ri = .ok .INTEGER) :
    evalBinary lv "+" rv = .ok ⟨.str (pyStr lv.value ++ pyStr rv.value), .STRING⟩
  ∧ analyzeExpression (fuel + 1) st (.bin l "+" rs) = .ok .INTEGER
  ∧ analyzeExpression (fuel + 1) st (.bin l "+" ri)
      = .error (.typeError "Type mismatch in binary operation: STRING + INTEGER") := by
  refine ⟨?_, ?_, ?_⟩
  · unfold evalBinary
    rw [if_pos (rfl : ("+" : String) = "+"), if_pos h]
  · rw [analyzeExpression_bin_step, hl, hrs]
    simp [isTypeCompatible]
  · rw [analyzeExpression_bin_step, hl, hri]
    simp [isTypeCompatible, dtValue]

/-- Witness for C5 on `"a" + 1` (evaluator) and on literal STRING and
INTEGER operands (analyzer). -/
theorem C5_witness :
    ((⟨.str "a", .STRING⟩ : RuntimeValue).type = .STRING
      ∨ (⟨.int 1, .INTEGER⟩ : RuntimeValue).type = .STRING)
  ∧ analyzeExpression 9 ⟨[[]], builtinProcs⟩ (.lit (.str "a") .STRING) = .ok .STRING
  ∧ analyzeExpression 9 ⟨[[]], builtinProcs⟩ (.lit (.str "b") .STRING) = .ok .STRING
  ∧ analyzeExpression 9 ⟨[[]], builtinProcs⟩ (.lit (.int 1) .INTEGER) = .ok .INTEGER
  ∧ (evalBinary ⟨.str "a", .STRING⟩ "+" ⟨.int 1, .INTEGER⟩
        = .ok ⟨.str (pyStr (.str "a") ++ pyStr (.int 1)), .STRING⟩
      ∧ analyzeExpression (9 + 1) ⟨[[]], builtinProcs⟩
          (.bin (.lit (.str "a") .STRING) "+" (.lit (.str "b") .STRING)) = .ok .INTEGER
      ∧ analyzeExpression (9 + 1) ⟨[[]], builtinProcs⟩
          (.bin (.lit (.str "a") .STRING) "+" (.lit (.int 1) .INTEGER))
        = .error (.typeError "Type mismatch in binary operation: STRING + INTEGER")) :=
  ⟨Or.inl rfl, rfl, rfl, rfl,
    C5_string_concat_semantics ⟨.str "a", .STRING⟩ ⟨.int 1, .INTEGER⟩ (Or.inl rfl)
      9 ⟨[[]], builtinProcs⟩ (.lit (.str "a") .STRING) (.lit (.str "b") .STRING)
      (.lit (.int 1) .INTEGER) rfl rfl rfl⟩

/-- C6: the parser cannot accept the claimed 10 x 10 array program.  A
two-dimensional declaration fails at the comma inside the brackets
(`parse_var_declaration` accepts exactly one dimension), and even the
one-dimensional form crashes inside the `VarDeclaration` constructor,
whose backwards-compatibility shim applies `len` to the plain `int`
the parser passes. -/
theorem C6_array_declarations_rejected :
    lexAndParseVarDecl "VAR a: ARRAY [10, 10] OF INTEGER;"
        = .error (.syntaxError "Expected ], got ,")
  ∧ lexAndParseVarDecl "VAR a: ARRAY [10] OF INTEGER;"
        = .error (.typeError "object of type int has no len()") := ⟨rfl, rfl⟩

/-- Counterexample to C8: lexing the input `(*x`, whose comment is
never closed, does not fail — it returns a token stream consisting of
the EOF token alone. -/
theorem C8_counterexample :
    tokenizeStr 100 "(*x" = .ok [⟨.EOF, "", 1, 4⟩] := rfl

/-- C8 amended: on any input whose remainder after `(*` never contains
`*)`, the lexer silently consumes everything and returns a stream
holding only the EOF token (at the line/column the comment scan ends
with); it is unterminated strings and unclassifiable characters that
raise, not unterminated comments. -/
theorem C8_unterminated_comment_lexes_to_EOF (s : List Char) (l c fuel : Nat)
    (h : hasCommentClose s = false) :
    tokenize (fuel + 1) ('(' :: '*' :: s) l c []
      = .ok [⟨.EOF, "", (skipWs true s l (c + 2)).2.1, (skipWs true s l (c + 2)).2.2⟩] := by
  have h0 : skipWs false ('(' :: '*' :: s) l c = skipWs true s l (c + 2) := by
    rw [skipWs]
    rw [if_neg (by decide : ¬ pyIsSpace '(' = true)]
    rw [if_pos ⟨rfl, rfl⟩]
  rw [tokenize, h0]
  have h1 := skipWs_true_no_close s l (c + 2) h
  rcases hw : skipWs true s l (c + 2) with ⟨rest', l', c'⟩
  rw [hw] at h1
  simp only at h1
  subst h1
  rfl

/-- Witness for C8 on the remainder `x`. -/
theorem C8_witness :
    hasCommentClose ['x'] = false
  ∧ tokenize (0 + 1) ('(' :: '*' :: ['x']) 1 1 []
      = .ok [⟨.EOF, "", (skipWs true ['x'] 1 (1 + 2)).2.1, (skipWs true ['x'] 1 (1 + 2)).2.2⟩] :=
  ⟨rfl, C8_unterminated_comment_lexes_to_EOF ['x'] 1 1 0 rfl⟩

end Ob
